import Mathlib

/-!
Verification of the request-governance core of the jira-obsidian plugin:
the token-bucket `RateLimiter`, the retrying HTTP request loop of
`ObsidianHttpClient`, and the request-deduplication layer of
`JiraApiService`.  Each definition is a shallow embedding of the
corresponding TypeScript source (src/services/ObsidianHttpClient.ts,
which also carries the RateLimiter class, and src/services/jiraApiService.ts).
Timestamps are natural-number milliseconds; the JS number holding the token
count is modelled as an integer (it starts at an integer and every mutation
is by an integer amount); Math.floor of the exact real product
(elapsed / 60000) * requestsPerMinute is natural division
elapsed * requestsPerMinute / 60000.
-/

/-- Config object of the RateLimiter class (`requestsPerMinute`, `burstLimit`,
`queueTimeout` defaulted to 30000 in the constructor). -/
structure RateLimiterConfig where
  requestsPerMinute : Nat
  burstLimit : Nat
  queueTimeout : Nat
deriving Repr, DecidableEq

/-- Result object returned by `acquireToken` (and handed to queued waiters).
`retryAfter = none` models the field being absent. -/
structure RateLimitResult where
  allowed : Bool
  remaining : Int
  retryAfter : Option Nat
  error : Option String
deriving Repr, DecidableEq

/-- Mutable state of a RateLimiter instance: `tokens`, `lastRefillTime`,
the wait queue (modelled by the `timestamp` field of each entry; the
resolve/reject callbacks carry no further state), and whether the refill
interval is still installed. -/
structure RateLimiterState where
  tokens : Int
  lastRefillTime : Nat
  queue : List Nat
  refillActive : Bool
deriving Repr, DecidableEq

/-- Snapshot returned by `getStats`. -/
structure RateLimitStats where
  requestsPerMinute : Nat
  burstLimit : Nat
  currentTokens : Int
  queueSize : Nat
  lastRefillTime : Nat
deriving Repr, DecidableEq

namespace RateLimiter

/-- The constructor: `tokens = burstLimit`, `lastRefillTime = now`,
empty queue, refill interval started. -/
def construct (cfg : RateLimiterConfig) (now : Nat) : RateLimiterState :=
  { tokens := (cfg.burstLimit : Int)
    lastRefillTime := now
    queue := []
    refillActive := true }

/-- The `processQueue` while-loop over the queue list and the token count:
while the queue is nonempty and `tokens > 0`, shift one entry, decrement
`tokens`, and resolve the entry with `allowed: true`.  Returns the remaining
queue, the remaining tokens, and the list of resolutions issued. -/
def processQueueAux : List Nat → Int → List Nat × Int × List RateLimitResult
  | [], t => ([], t, [])
  | x :: rest, t =>
    if t > 0 then
      let r := processQueueAux rest (t - 1)
      (r.1, r.2.1,
        { allowed := true, remaining := t - 1, retryAfter := none, error := none } :: r.2.2)
    else (x :: rest, t, [])

/-- `refillTokens`: compute elapsed time, add
`Math.floor(elapsed / 60000 * requestsPerMinute)` tokens capped at
`burstLimit` when at least one whole token accrued, reset `lastRefillTime`
to `now`, then run `processQueue`.  Returns the new state and the
resolutions issued by the queue drain. -/
def refillTokens (cfg : RateLimiterConfig) (s : RateLimiterState) (now : Nat) :
    RateLimiterState × List RateLimitResult :=
  let elapsed : Nat := now - s.lastRefillTime
  let tokensToAdd : Nat := elapsed * cfg.requestsPerMinute / 60000
  if 1 ≤ tokensToAdd then
    let tokens1 : Int := min (cfg.burstLimit : Int) (s.tokens + (tokensToAdd : Int))
    let r := processQueueAux s.queue tokens1
    ({ s with tokens := r.2.1, lastRefillTime := now, queue := r.1 }, r.2.2)
  else (s, [])

/-- `calculateRetryAfter`: 0 when tokens remain, else
`Math.ceil(60000 / requestsPerMinute)` (ceiling division; the class is
configured with `requestsPerMinute ≥ 1`). -/
def calculateRetryAfter (cfg : RateLimiterConfig) (s : RateLimiterState) : Nat :=
  if s.tokens > 0 then 0
  else (60000 + cfg.requestsPerMinute - 1) / cfg.requestsPerMinute

/-- `acquireToken`: refill, then either consume a token and return
`allowed: true` with the remaining count, or return `allowed: false`
with `retryAfter` and the `RATE_LIMITED` error marker.  The method is a
total function: denial is a normal return value, never an exception. -/
def acquireToken (cfg : RateLimiterConfig) (s : RateLimiterState) (now : Nat) :
    RateLimiterState × RateLimitResult :=
  let s1 := (refillTokens cfg s now).1
  if s1.tokens > 0 then
    ({ s1 with tokens := s1.tokens - 1 },
      { allowed := true, remaining := s1.tokens - 1, retryAfter := none, error := none })
  else
    (s1,
      { allowed := false, remaining := 0,
        retryAfter := some (calculateRetryAfter cfg s1), error := some "RATE_LIMITED" })

/-- `getQueueSize`. -/
def getQueueSize (s : RateLimiterState) : Nat :=
  s.queue.length

/-- `getStats`: read-only snapshot. -/
def getStats (cfg : RateLimiterConfig) (s : RateLimiterState) : RateLimitStats :=
  { requestsPerMinute := cfg.requestsPerMinute
    burstLimit := cfg.burstLimit
    currentTokens := s.tokens
    queueSize := s.queue.length
    lastRefillTime := s.lastRefillTime }

/-- `destroy`: clear the refill interval, resolve every queued waiter with
the `RATE_LIMITER_DESTROYED` outcome, and empty the queue.  Returns the new
state and the resolutions issued to the waiters. -/
def destroy (s : RateLimiterState) : RateLimiterState × List RateLimitResult :=
  ({ s with refillActive := false, queue := [] },
    s.queue.map fun _ =>
      { allowed := false, remaining := 0, retryAfter := none,
        error := some "RATE_LIMITER_DESTROYED" })

/-- One observable event in the life of a RateLimiter instance: a call to
`acquireToken`, a background refill tick, or `destroy`. -/
inductive RLStep where
  | acquire (now : Nat)
  | refillTick (now : Nat)
  | destroyStep
deriving Repr, DecidableEq

/-- State transition of a single event. -/
def stepState (cfg : RateLimiterConfig) (s : RateLimiterState) : RLStep → RateLimiterState
  | .acquire now => (acquireToken cfg s now).1
  | .refillTick now => (refillTokens cfg s now).1
  | .destroyStep => (destroy s).1

/-- Run a sequence of events from a state. -/
def runSteps (cfg : RateLimiterConfig) (s : RateLimiterState) : List RLStep → RateLimiterState
  | [] => s
  | st :: rest => runSteps cfg (stepState cfg s st) rest

end RateLimiter

namespace RateLimiter

theorem processQueueAux_tokens_le (q : List Nat) (t : Int) :
    (processQueueAux q t).2.1 ≤ t := by
  induction q generalizing t with
  | nil => simp [processQueueAux]
  | cons x rest ih =>
    simp only [processQueueAux]
    split
    · exact le_trans (ih (t - 1)) (by omega)
    · exact le_refl t

theorem processQueueAux_tokens_nonneg (q : List Nat) (t : Int) (h : 0 ≤ t) :
    0 ≤ (processQueueAux q t).2.1 := by
  induction q generalizing t with
  | nil => simpa [processQueueAux] using h
  | cons x rest ih =>
    simp only [processQueueAux]
    split
    next hpos => exact ih (t - 1) (by omega)
    next => simpa using h

theorem refillTokens_bounds (cfg : RateLimiterConfig) (s : RateLimiterState) (now : Nat)
    (h0 : 0 ≤ s.tokens) (h1 : s.tokens ≤ (cfg.burstLimit : Int)) :
    0 ≤ (refillTokens cfg s now).1.tokens ∧
      (refillTokens cfg s now).1.tokens ≤ (cfg.burstLimit : Int) := by
  simp only [refillTokens]
  split
  · constructor
    · exact processQueueAux_tokens_nonneg _ _ (le_min (Int.natCast_nonneg _) (by omega))
    · exact le_trans (processQueueAux_tokens_le _ _) (min_le_left _ _)
  · exact ⟨h0, h1⟩

theorem acquireToken_bounds (cfg : RateLimiterConfig) (s : RateLimiterState) (now : Nat)
    (h0 : 0 ≤ s.tokens) (h1 : s.tokens ≤ (cfg.burstLimit : Int)) :
    0 ≤ (acquireToken cfg s now).1.tokens ∧
      (acquireToken cfg s now).1.tokens ≤ (cfg.burstLimit : Int) := by
  have hr := refillTokens_bounds cfg s now h0 h1
  simp only [acquireToken]
  split
  next hpos => dsimp only; omega
  next => exact hr

theorem stepState_bounds (cfg : RateLimiterConfig) (s : RateLimiterState) (st : RLStep)
    (h0 : 0 ≤ s.tokens) (h1 : s.tokens ≤ (cfg.burstLimit : Int)) :
    0 ≤ (stepState cfg s st).tokens ∧
      (stepState cfg s st).tokens ≤ (cfg.burstLimit : Int) := by
  cases st with
  | acquire now => exact acquireToken_bounds cfg s now h0 h1
  | refillTick now => exact refillTokens_bounds cfg s now h0 h1
  | destroyStep => exact ⟨h0, h1⟩

theorem runSteps_bounds (cfg : RateLimiterConfig) (trace : List RLStep)
    (s : RateLimiterState)
    (h0 : 0 ≤ s.tokens) (h1 : s.tokens ≤ (cfg.burstLimit : Int)) :
    0 ≤ (runSteps cfg s trace).tokens ∧
      (runSteps cfg s trace).tokens ≤ (cfg.burstLimit : Int) := by
  induction trace generalizing s with
  | nil => exact ⟨h0, h1⟩
  | cons st rest ih =>
    have h := stepState_bounds cfg s st h0 h1
    exact ih (stepState cfg s st) h.1 h.2

end RateLimiter

/-- C3: starting from the constructed state (`availableTokens = capacity`),
after any sequence of `acquireToken` calls, refill ticks, and `destroy`
events, the token count satisfies `0 ≤ tokens ≤ burstLimit`: `acquireToken`
never drives the count below 0 and refill never raises it above the burst
limit. -/
theorem C3_token_bounds (cfg : RateLimiterConfig) (t0 : Nat)
    (trace : List RateLimiter.RLStep) :
    0 ≤ (RateLimiter.runSteps cfg (RateLimiter.construct cfg t0) trace).tokens ∧
      (RateLimiter.runSteps cfg (RateLimiter.construct cfg t0) trace).tokens ≤
        (cfg.burstLimit : Int) :=
  RateLimiter.runSteps_bounds cfg trace (RateLimiter.construct cfg t0)
    (Int.natCast_nonneg _) (le_refl _)

/-- C8: with `burstLimit = 5` and `requestsPerMinute = 60`, five immediate
`acquireToken` calls (all at the construction instant, no time elapsing) all
return `allowed = true` with remaining counts 4, 3, 2, 1, 0, and the sixth
immediate call returns `allowed = false` with `retryAfter = 1000` ms
(`Math.ceil(60000 / 60)`).  Denial is a normal return value of the total
function `acquireToken`, not an exception. -/
theorem C8_burst_then_throttle :
    (let cfg : RateLimiterConfig := ⟨60, 5, 30000⟩
     let s0 := RateLimiter.construct cfg 1000
     let a1 := RateLimiter.acquireToken cfg s0 1000
     let a2 := RateLimiter.acquireToken cfg a1.1 1000
     let a3 := RateLimiter.acquireToken cfg a2.1 1000
     let a4 := RateLimiter.acquireToken cfg a3.1 1000
     let a5 := RateLimiter.acquireToken cfg a4.1 1000
     let a6 := RateLimiter.acquireToken cfg a5.1 1000
     a1.2 = { allowed := true, remaining := 4, retryAfter := none, error := none } ∧
     a2.2 = { allowed := true, remaining := 3, retryAfter := none, error := none } ∧
     a3.2 = { allowed := true, remaining := 2, retryAfter := none, error := none } ∧
     a4.2 = { allowed := true, remaining := 1, retryAfter := none, error := none } ∧
     a5.2 = { allowed := true, remaining := 0, retryAfter := none, error := none } ∧
     a6.2 = { allowed := false, remaining := 0, retryAfter := some 1000,
              error := some "RATE_LIMITED" } ∧
     1000 = (60000 + 60 - 1) / 60) := by
  decide

namespace RateLimiter

theorem refillTokens_queue_empty (cfg : RateLimiterConfig) (s : RateLimiterState) (now : Nat)
    (h : s.queue = []) : (refillTokens cfg s now).1.queue = [] := by
  simp only [refillTokens, h]
  split <;> simp [processQueueAux, h]

theorem acquireToken_queue_empty (cfg : RateLimiterConfig) (s : RateLimiterState) (now : Nat)
    (h : s.queue = []) : (acquireToken cfg s now).1.queue = [] := by
  have hr := refillTokens_queue_empty cfg s now h
  simp only [acquireToken]
  split <;> simpa using hr

theorem stepState_queue_empty (cfg : RateLimiterConfig) (s : RateLimiterState) (st : RLStep)
    (h : s.queue = []) : (stepState cfg s st).queue = [] := by
  cases st with
  | acquire now => exact acquireToken_queue_empty cfg s now h
  | refillTick now => exact refillTokens_queue_empty cfg s now h
  | destroyStep => simp [stepState, destroy]

theorem runSteps_queue_empty (cfg : RateLimiterConfig) (trace : List RLStep)
    (s : RateLimiterState) (h : s.queue = []) : (runSteps cfg s trace).queue = [] := by
  induction trace generalizing s with
  | nil => exact h
  | cons st rest ih => exact ih (stepState cfg s st) (stepState_queue_empty cfg s st h)

end RateLimiter

/-- C10: in every reachable state of the RateLimiter (any sequence of
`acquireToken` calls, refill ticks, and `destroy` from the constructed
state), the wait queue is empty: no operation ever enqueues an entry, so
`getQueueSize` and `getStats` report queue size 0, `processQueue` resolves
no waiter, and the waiter-resolution loop of `destroy` iterates zero
times (it issues an empty list of resolutions). -/
theorem C10_queue_always_empty (cfg : RateLimiterConfig) (t0 : Nat)
    (trace : List RateLimiter.RLStep) :
    (RateLimiter.runSteps cfg (RateLimiter.construct cfg t0) trace).queue = [] ∧
    RateLimiter.getQueueSize
      (RateLimiter.runSteps cfg (RateLimiter.construct cfg t0) trace) = 0 ∧
    (RateLimiter.getStats cfg
      (RateLimiter.runSteps cfg (RateLimiter.construct cfg t0) trace)).queueSize = 0 ∧
    (∀ t : Int, (RateLimiter.processQueueAux
      (RateLimiter.runSteps cfg (RateLimiter.construct cfg t0) trace).queue t).2.2 = []) ∧
    (RateLimiter.destroy
      (RateLimiter.runSteps cfg (RateLimiter.construct cfg t0) trace)).2 = [] := by
  have h := RateLimiter.runSteps_queue_empty cfg trace (RateLimiter.construct cfg t0) rfl
  refine ⟨h, ?_, ?_, ?_, ?_⟩
  · simp [RateLimiter.getQueueSize, h]
  · simp [RateLimiter.getStats, h]
  · intro t
    simp [h, RateLimiter.processQueueAux]
  · simp [RateLimiter.destroy, h]

/-- C6 counterexample: with `requestsPerMinute = 90` and `burstLimit = 5`,
drain the bucket to 0 at time 0, then run background refill ticks at
1000, 2000, 3000 and 3334 ms.  Although 3334 ms have elapsed and
`3334 * 90 ≥ 60000 * 5` (i.e. the elapsed time is at least
`60000 * capacity / refillRatePerMinute` ms), only 3 tokens are available:
each executed tick resets `lastRefillTime` to `now` and discards the
fractional token progress (1.5 tokens accrue per tick but only 1 is added),
so the count has not reached capacity within the claimed bound. -/
theorem C6_counterexample :
    (let cfg : RateLimiterConfig := ⟨90, 5, 30000⟩
     let sZero := RateLimiter.runSteps cfg (RateLimiter.construct cfg 0)
       [RateLimiter.RLStep.acquire 0, RateLimiter.RLStep.acquire 0,
        RateLimiter.RLStep.acquire 0, RateLimiter.RLStep.acquire 0,
        RateLimiter.RLStep.acquire 0]
     let sEnd := RateLimiter.runSteps cfg sZero
       [RateLimiter.RLStep.refillTick 1000, RateLimiter.RLStep.refillTick 2000,
        RateLimiter.RLStep.refillTick 3000, RateLimiter.RLStep.refillTick 3334]
     sZero.tokens = 0 ∧ sZero.lastRefillTime = 0 ∧
     60000 * 5 ≤ 3334 * 90 ∧ sEnd.tokens = 3 ∧ sEnd.tokens ≠ 5) := by
  decide

/-- C6 amended: with no `acquireToken` calls, `availableTokens` is
non-decreasing across refill steps (in any state satisfying the reachable
invariants: token count within bounds and empty queue).  A single refill
computation performed `d` ms after the zero-token state, with
`60000 * burstLimit ≤ d * requestsPerMinute`, restores the full capacity.
The original bound — capacity regained within
`60000 * capacity / refillRatePerMinute` ms across a sequence of ~1-second
ticks — does not hold, because each executed tick discards fractional token
progress (see the counterexample). -/
theorem C6_refill_monotone_and_single_refill_bound
    (cfg : RateLimiterConfig) (s : RateLimiterState) (now t0 d : Nat) :
    (0 ≤ s.tokens → s.tokens ≤ (cfg.burstLimit : Int) → s.queue = [] →
      s.tokens ≤ (RateLimiter.refillTokens cfg s now).1.tokens) ∧
    (1 ≤ cfg.burstLimit → 60000 * cfg.burstLimit ≤ d * cfg.requestsPerMinute →
      (RateLimiter.refillTokens cfg ⟨0, t0, [], true⟩ (t0 + d)).1.tokens =
        (cfg.burstLimit : Int)) := by
  constructor
  · intro h0 h1 hq
    simp only [RateLimiter.refillTokens, hq]
    split
    next hadd => simp only [RateLimiter.processQueueAux]; omega
    next => exact le_refl _
  · intro hcap hrate
    have hadd : cfg.burstLimit ≤ d * cfg.requestsPerMinute / 60000 := by
      rw [Nat.le_div_iff_mul_le (by norm_num)]
      omega
    simp only [RateLimiter.refillTokens, Nat.add_sub_cancel_left]
    split
    next => simp only [RateLimiter.processQueueAux]; omega
    next hfail => omega

/-- C6 witness: with `requestsPerMinute = 60`, `burstLimit = 5`, a refill
from 2 tokens does not decrease the count, and a single refill 5000 ms after
the zero-token state restores all 5 tokens. -/
theorem C6_witness :
    (2 : Int) ≤
      (RateLimiter.refillTokens ⟨60, 5, 30000⟩ ⟨2, 0, [], true⟩ 1000).1.tokens ∧
    (RateLimiter.refillTokens ⟨60, 5, 30000⟩ ⟨0, 0, [], true⟩ (0 + 5000)).1.tokens = 5 := by
  have h := C6_refill_monotone_and_single_refill_bound ⟨60, 5, 30000⟩ ⟨2, 0, [], true⟩ 1000 0 5000
  exact ⟨h.1 (by decide) (by decide) rfl, h.2 (by decide) (by decide)⟩

/-- JavaScript `parseInt` restricted to the forms relevant here: the longest
leading run of decimal digits is parsed; if there is none, the result is NaN,
modelled as `none`.  (Leading whitespace and sign handling of full `parseInt`
are not exercised by any Retry-After header in this development.) -/
def jsParseInt (s : String) : Option Nat :=
  let ds := s.data.takeWhile fun c => c.isDigit
  if ds.isEmpty then none
  else some (ds.foldl (fun a c => a * 10 + (c.toNat - 48)) 0)

namespace ObsidianHttpClient

/-- The part of the Obsidian `RequestUrlResponse` the retry loop and error
classification inspect: the status code, the `retry-after` header
(`none` = header absent), and the body-derived error message
`errorData.message || errorData.errorMessages?.[0]` (`none` when the body
yields neither, so the per-kind fallback literal applies).  The message
matters for control flow: the catch block retries a thrown error whose
message contains "network" or "timeout".  Content type and the
informational rate-limit headers do not influence control flow and are
omitted. -/
structure RequestUrlResponse where
  status : Nat
  retryAfterHeader : Option String
  bodyMessage : Option String
deriving Repr, DecidableEq

/-- The `retryAfter` computation of `handleErrorResponse`:
`parseInt(response.headers[retry-after] || 60) * 1000`.  A missing or
empty header string is falsy, so the literal "60" is parsed instead;
a non-empty header with no leading digit makes `parseInt` return NaN
(`none`), and NaN propagates through the multiplication. -/
def retryAfterMs (h : Option String) : Option Nat :=
  let eff := match h with
    | none => "60"
    | some s => if s = "" then "60" else s
  (jsParseInt eff).map fun n => n * 1000

/-- The typed errors produced by `handleErrorResponse`, carrying the fields
that influence control flow or that the claims observe: `status` (absent on
the RATE_LIMIT_ERROR object), `message` (consulted by the catch block's
retryability check), and `retryAfter` on 429 (`rateLimitError none` models
a NaN `retryAfter` field).  Timestamps and informational limits are
omitted. -/
inductive JiraServiceError where
  | authenticationError (status : Nat) (message : String)
  | rateLimitError (retryAfter : Option Nat) (message : String)
  | jiraApiError (status : Nat) (message : String)
deriving Repr, DecidableEq

/-- `handleErrorResponse`: 401/403 become `AUTHENTICATION_ERROR` with the
body-derived message (fallback "Authentication failed"), 429 becomes
`RATE_LIMIT_ERROR` with the parsed `retryAfter` and the literal message
"Rate limit exceeded", everything else becomes `JIRA_API_ERROR` carrying
the status and the body-derived message (fallback "API error occurred"). -/
def handleErrorResponse (r : RequestUrlResponse) : JiraServiceError :=
  if r.status = 401 ∨ r.status = 403 then
    .authenticationError r.status (r.bodyMessage.getD "Authentication failed")
  else if r.status = 429 then
    .rateLimitError (retryAfterMs r.retryAfterHeader) "Rate limit exceeded"
  else .jiraApiError r.status (r.bodyMessage.getD "API error occurred")

/-- JavaScript `String.prototype.includes`: substring containment. -/
def strIncludes (s sub : String) : Bool :=
  decide (sub.data <:+: s.data)

/-- `isRetryableError` on the typed error objects thrown inside the request
loop: retryable when the error message contains "network" or "timeout", or
when the error carries a `status` field that is ≥ 500.  The RATE_LIMIT_ERROR
object has no `status` field (`undefined >= 500` is false), so only its
message is consulted. -/
def isRetryableError : JiraServiceError → Bool
  | .authenticationError st msg =>
    strIncludes msg "network" || strIncludes msg "timeout" || decide (500 ≤ st)
  | .rateLimitError _ msg =>
    strIncludes msg "network" || strIncludes msg "timeout"
  | .jiraApiError st msg =>
    strIncludes msg "network" || strIncludes msg "timeout" || decide (500 ≤ st)

/-- The retry loop of `ObsidianHttpClient.request`, for a transport that
always yields a status response (a `transport` oracle mapping the attempt
number to the response).  `remaining = maxRetries - attempt` counts the
retries still permitted.  Statuses in [200,300) succeed (the parsed body is
stood for by the status).  Any other status is converted by
`handleErrorResponse` and thrown — inside the try for [400,500), at the
loop end otherwise unless the in-try `status ≥ 500` branch retries first —
and every thrown error lands in the catch block, which rethrows when no
attempts remain and otherwise retries exactly when `isRetryableError`
holds (so a 4xx/1xx/3xx error whose body-derived message contains
"network" or "timeout" IS retried).  Returns the outcome and the number of
transport invocations made. -/
def requestAux (transport : Nat → RequestUrlResponse) :
    Nat → Nat → Except JiraServiceError Nat × Nat
  | attempt, 0 =>
    let r := transport attempt
    if 200 ≤ r.status ∧ r.status < 300 then (Except.ok r.status, 1)
    else (Except.error (handleErrorResponse r), 1)
  | attempt, rem + 1 =>
    let r := transport attempt
    if 200 ≤ r.status ∧ r.status < 300 then (Except.ok r.status, 1)
    else
      let e := handleErrorResponse r
      if 400 ≤ r.status ∧ r.status < 500 then
        if isRetryableError e then
          let q := requestAux transport (attempt + 1) rem
          (q.1, q.2 + 1)
        else (Except.error e, 1)
      else if 500 ≤ r.status then
        let q := requestAux transport (attempt + 1) rem
        (q.1, q.2 + 1)
      else if isRetryableError e then
        let q := requestAux transport (attempt + 1) rem
        (q.1, q.2 + 1)
      else (Except.error e, 1)

/-- `request` with a given `maxRetries` starts at attempt 0 with
`maxRetries` retries remaining. -/
def request (transport : Nat → RequestUrlResponse) (maxRetries : Nat) :
    Except JiraServiceError Nat × Nat :=
  requestAux transport 0 maxRetries

end ObsidianHttpClient

/-- C4: with `maxRetries = 3`, a transport that always returns status 503
causes exactly 4 transport invocations (the initial attempt plus 3
retries), after which the caller receives the typed JIRA_API_ERROR
carrying status 503. -/
theorem C4_exhausted_retries_503 :
    ObsidianHttpClient.request (fun _ => ⟨503, none, none⟩) 3 =
      (Except.error (.jiraApiError 503 "API error occurred"), 4) := by
  rfl

namespace ObsidianHttpClient

theorem isRetryableError_rateLimit (x : Option Nat) :
    isRetryableError (.rateLimitError x "Rate limit exceeded") = false := by
  rfl

theorem requestAux_const_500 (bm : Option String) (attempt remaining : Nat) :
    requestAux (fun _ => ⟨500, none, bm⟩) attempt remaining =
      (Except.error (.jiraApiError 500 (bm.getD "API error occurred")),
        remaining + 1) := by
  induction remaining generalizing attempt with
  | zero => rfl
  | succ rem ih =>
    simp [requestAux, handleErrorResponse, ih (attempt + 1)]

end ObsidianHttpClient

/-- C5 counterexample: a transport that always answers 401 with the JSON
body message "request timeout" is invoked 4 times under `maxRetries = 3`,
not once: the thrown AUTHENTICATION_ERROR carries the body-derived message,
the catch block's `isRetryableError` finds "timeout" in it and retries, so
the claimed unconditional zero-retry handling of 401 is false. -/
theorem C5_counterexample :
    ObsidianHttpClient.request (fun _ => ⟨401, none, some "request timeout"⟩) 3 =
      (Except.error (.authenticationError 401 "request timeout"), 4) ∧
    (4 : Nat) ≠ 1 := by
  exact ⟨rfl, by decide⟩

/-- C5 amended: outcome classification drives retry eligibility.  A
transport that always answers 500 is invoked `maxRetries + 1` times and the
caller then receives the JIRA_API_ERROR with status 500.  A transport
answering 401 raises AUTHENTICATION_ERROR after exactly one invocation
(zero retries) provided the thrown error is not retryable — that is, its
body-derived message (fallback "Authentication failed") contains neither
"network" nor "timeout"; a 401 whose message contains one of those
substrings is retried like a server error (see the counterexample).  A
transport answering 429 raises RATE_LIMIT_ERROR after exactly one
invocation unconditionally: its message is the literal
"Rate limit exceeded" and the error carries no status field. -/
theorem C5_retry_classification (maxRetries : Nat) (hdr bm : Option String) :
    ObsidianHttpClient.request (fun _ => ⟨500, none, bm⟩) maxRetries =
      (Except.error (.jiraApiError 500 (bm.getD "API error occurred")),
        maxRetries + 1) ∧
    (ObsidianHttpClient.isRetryableError
        (.authenticationError 401 (bm.getD "Authentication failed")) = false →
      ObsidianHttpClient.request (fun _ => ⟨401, none, bm⟩) maxRetries =
        (Except.error
          (.authenticationError 401 (bm.getD "Authentication failed")), 1)) ∧
    ObsidianHttpClient.request (fun _ => ⟨429, hdr, bm⟩) maxRetries =
      (Except.error
        (.rateLimitError (ObsidianHttpClient.retryAfterMs hdr)
          "Rate limit exceeded"), 1) := by
  refine ⟨ObsidianHttpClient.requestAux_const_500 bm 0 maxRetries, ?_, ?_⟩
  · intro h
    cases maxRetries with
    | zero => rfl
    | succ n =>
      simp [ObsidianHttpClient.request, ObsidianHttpClient.requestAux,
        ObsidianHttpClient.handleErrorResponse, h]
  · cases maxRetries <;>
      simp [ObsidianHttpClient.request, ObsidianHttpClient.requestAux,
        ObsidianHttpClient.handleErrorResponse,
        ObsidianHttpClient.isRetryableError_rateLimit]

/-- C5 witness: a 401 whose body yields no message gets the fallback
message "Authentication failed", which is not retryable, so with
`maxRetries = 3` the transport is invoked exactly once. -/
theorem C5_witness :
    ObsidianHttpClient.isRetryableError
      (.authenticationError 401 "Authentication failed") = false ∧
    ObsidianHttpClient.request (fun _ => ⟨401, none, none⟩) 3 =
      (Except.error (.authenticationError 401 "Authentication failed"), 1) := by
  have h := C5_retry_classification 3 none none
  exact ⟨by decide, h.2.1 (by decide)⟩

/-- C7 counterexample: a 429 response whose Retry-After header is the
non-numeric string "abc" is surfaced after a single transport invocation,
but its `retryAfter` field is NaN (`parseInt` of a string with no leading
digit, times 1000), not the claimed 60000 ms default. -/
theorem C7_counterexample :
    ObsidianHttpClient.request (fun _ => ⟨429, some "abc", none⟩) 3 =
      (Except.error (.rateLimitError none "Rate limit exceeded"), 1) ∧
    ObsidianHttpClient.retryAfterMs (some "abc") ≠ some 60000 := by
  exact ⟨rfl, by decide⟩

/-- C7 amended: a 429 response is never retried — it is surfaced to the
caller after exactly one transport invocation as RATE_LIMIT_ERROR with
`retryAfter` computed from the Retry-After header.  A numeric header of n
seconds gives n * 1000 ms; an absent or empty header defaults to 60000 ms;
a non-empty header with no leading digit yields NaN (not the 60000
default). -/
theorem C7_rate_limit_never_retried (maxRetries : Nat) (hdr bm : Option String) :
    ObsidianHttpClient.request (fun _ => ⟨429, hdr, bm⟩) maxRetries =
      (Except.error
        (.rateLimitError (ObsidianHttpClient.retryAfterMs hdr)
          "Rate limit exceeded"), 1) ∧
    ObsidianHttpClient.retryAfterMs none = some 60000 ∧
    ObsidianHttpClient.retryAfterMs (some "") = some 60000 ∧
    (∀ (s : String) (n : Nat), s ≠ "" → jsParseInt s = some n →
      ObsidianHttpClient.retryAfterMs (some s) = some (n * 1000)) := by
  refine ⟨?_, by decide, by decide, ?_⟩
  · cases maxRetries <;>
      simp [ObsidianHttpClient.request, ObsidianHttpClient.requestAux,
        ObsidianHttpClient.handleErrorResponse,
        ObsidianHttpClient.isRetryableError_rateLimit]
  · intro s n hne hparse
    simp [ObsidianHttpClient.retryAfterMs, hne, hparse]

/-- C7 witness: a 429 with Retry-After 30 is surfaced after one transport
invocation with `retryAfter` 30000 ms. -/
theorem C7_witness :
    ObsidianHttpClient.request (fun _ => ⟨429, some "30", none⟩) 3 =
      (Except.error
        (.rateLimitError (ObsidianHttpClient.retryAfterMs (some "30"))
          "Rate limit exceeded"), 1) ∧
    ObsidianHttpClient.retryAfterMs (some "30") = some (30 * 1000) := by
  have h := C7_rate_limit_never_retried 3 (some "30") none
  exact ⟨h.1, h.2.2.2 "30" 30 (by decide) (by decide)⟩

namespace ObsidianHttpClient

theorem requestAux_calls_bounds (transport : Nat → RequestUrlResponse)
    (attempt remaining : Nat) :
    1 ≤ (requestAux transport attempt remaining).2 ∧
      (requestAux transport attempt remaining).2 ≤ remaining + 1 := by
  induction remaining generalizing attempt with
  | zero =>
    simp only [requestAux]
    split <;> simp
  | succ rem ih =>
    simp only [requestAux]
    split
    · simp
    · split
      · split
        · have h := ih (attempt + 1)
          dsimp only
          omega
        · simp
      · split
        · have h := ih (attempt + 1)
          dsimp only
          omega
        · split
          · have h := ih (attempt + 1)
            dsimp only
            omega
          · simp

end ObsidianHttpClient

namespace JiraApiService

/-- Observable outcome of one logical `getIssue` execution: the limiter
state afterwards, the result delivered to the caller, and how many times
the transport was invoked. -/
structure GetIssueOutcome where
  limiter : RateLimiterState
  result : Except ObsidianHttpClient.JiraServiceError Nat
  transportCalls : Nat

/-- `checkRateLimit`: one `acquireToken` call; on denial a RATE_LIMIT_ERROR
object carrying the limiter `retryAfter` is thrown, otherwise control
returns normally. -/
def checkRateLimit (cfg : RateLimiterConfig) (s : RateLimiterState) (now : Nat) :
    RateLimiterState × Except ObsidianHttpClient.JiraServiceError Unit :=
  let a := RateLimiter.acquireToken cfg s now
  if a.2.allowed then (a.1, Except.ok ())
  else (a.1, Except.error (.rateLimitError a.2.retryAfter "Rate limit exceeded"))

/-- The body of `getIssue` (shared by every deduplicated endpoint):
`await checkRateLimit()` once, then one `httpClient` request whose internal
loop performs the initial attempt and all retries.  The deduplication
wrapper is modelled separately (`deduplicateRequest`); with no concurrent
duplicate in flight it invokes this body once. -/
def getIssue (cfg : RateLimiterConfig) (s : RateLimiterState) (now : Nat)
    (transport : Nat → ObsidianHttpClient.RequestUrlResponse) (maxRetries : Nat) :
    GetIssueOutcome :=
  match checkRateLimit cfg s now with
  | (s1, Except.ok _) =>
    let q := ObsidianHttpClient.request transport maxRetries
    { limiter := s1, result := q.1, transportCalls := q.2 }
  | (s1, Except.error e) =>
    { limiter := s1, result := Except.error e, transportCalls := 0 }

end JiraApiService

/-- C1 counterexample: a `getIssue` execution against a transport that
always answers 503, with `maxRetries = 3` and a fresh limiter of capacity
10, makes 4 transport attempts but consumes exactly 1 rate-limit token:
the retries inside `ObsidianHttpClient.request` never call `acquireToken`
again, so it is false that every transport attempt is preceded by its own
token acquisition (4 attempts would need 4 tokens). -/
theorem C1_counterexample :
    (let cfg : RateLimiterConfig := ⟨60, 10, 30000⟩
     let s0 := RateLimiter.construct cfg 0
     let out := JiraApiService.getIssue cfg s0 0 (fun _ => ⟨503, none, none⟩) 3
     out.transportCalls = 4 ∧ s0.tokens - out.limiter.tokens = 1 ∧
       ¬ (out.transportCalls ≤ 1)) := by
  refine ⟨rfl, by decide, by decide⟩

namespace RateLimiter

theorem acquireToken_allowed_tokens (cfg : RateLimiterConfig) (s : RateLimiterState)
    (now : Nat) (h : (acquireToken cfg s now).2.allowed = true) :
    (acquireToken cfg s now).1.tokens = (refillTokens cfg s now).1.tokens - 1 := by
  simp only [acquireToken] at h ⊢
  split
  · rfl
  · next hneg => simp only [hneg] at h; exact absurd h (by simp)

end RateLimiter

/-- C1 amended: each logical request execution performs exactly one
`acquireToken` call, before the first transport attempt; the limiter state
the caller observes afterwards is exactly the post-acquire state, whatever
the transport does (no re-acquisition on retries).  When the acquisition is
allowed, exactly one token is consumed and the transport is invoked between
1 and `maxRetries + 1` times; when it is denied, the transport is never
invoked. -/
theorem C1_single_token_per_logical_request (cfg : RateLimiterConfig)
    (s : RateLimiterState) (now : Nat)
    (transport : Nat → ObsidianHttpClient.RequestUrlResponse) (maxRetries : Nat) :
    (JiraApiService.getIssue cfg s now transport maxRetries).limiter =
      (RateLimiter.acquireToken cfg s now).1 ∧
    ((RateLimiter.acquireToken cfg s now).2.allowed = true →
      (JiraApiService.getIssue cfg s now transport maxRetries).limiter.tokens =
        (RateLimiter.refillTokens cfg s now).1.tokens - 1 ∧
      1 ≤ (JiraApiService.getIssue cfg s now transport maxRetries).transportCalls ∧
      (JiraApiService.getIssue cfg s now transport maxRetries).transportCalls ≤
        maxRetries + 1) ∧
    ((RateLimiter.acquireToken cfg s now).2.allowed = false →
      (JiraApiService.getIssue cfg s now transport maxRetries).transportCalls = 0) := by
  have hlim : (JiraApiService.getIssue cfg s now transport maxRetries).limiter =
      (RateLimiter.acquireToken cfg s now).1 := by
    simp only [JiraApiService.getIssue, JiraApiService.checkRateLimit]
    split
    next heq => split at heq <;> simp_all
    next heq => split at heq <;> simp_all
  refine ⟨hlim, ?_, ?_⟩
  · intro hallow
    refine ⟨hlim ▸ RateLimiter.acquireToken_allowed_tokens cfg s now hallow, ?_⟩
    have hcalls := ObsidianHttpClient.requestAux_calls_bounds transport 0 maxRetries
    simp only [JiraApiService.getIssue, JiraApiService.checkRateLimit]
    split
    next heq => exact hcalls
    next heq =>
      split at heq
      · simp_all
      · simp_all
  · intro hdeny
    simp only [JiraApiService.getIssue, JiraApiService.checkRateLimit]
    split
    next heq => split at heq <;> simp_all
    next heq => rfl

/-- C1 witness: on a fresh limiter (capacity 5, allowed) the always-503
run with `maxRetries = 3` leaves the post-acquire limiter state, consumes
one token, and makes between 1 and 4 transport attempts; on an empty
bucket (denied) the transport is never invoked. -/
theorem C1_witness :
    ((JiraApiService.getIssue ⟨60, 5, 30000⟩ (RateLimiter.construct ⟨60, 5, 30000⟩ 0) 0
        (fun _ => ⟨503, none, none⟩) 3).limiter =
      (RateLimiter.acquireToken ⟨60, 5, 30000⟩ (RateLimiter.construct ⟨60, 5, 30000⟩ 0) 0).1 ∧
     (JiraApiService.getIssue ⟨60, 5, 30000⟩ (RateLimiter.construct ⟨60, 5, 30000⟩ 0) 0
        (fun _ => ⟨503, none, none⟩) 3).limiter.tokens =
      (RateLimiter.refillTokens ⟨60, 5, 30000⟩ (RateLimiter.construct ⟨60, 5, 30000⟩ 0) 0).1.tokens
        - 1 ∧
     1 ≤ (JiraApiService.getIssue ⟨60, 5, 30000⟩ (RateLimiter.construct ⟨60, 5, 30000⟩ 0) 0
        (fun _ => ⟨503, none, none⟩) 3).transportCalls ∧
     (JiraApiService.getIssue ⟨60, 5, 30000⟩ (RateLimiter.construct ⟨60, 5, 30000⟩ 0) 0
        (fun _ => ⟨503, none, none⟩) 3).transportCalls ≤ 4) ∧
    (JiraApiService.getIssue ⟨60, 5, 30000⟩ ⟨0, 0, [], true⟩ 0
        (fun _ => ⟨503, none, none⟩) 3).transportCalls = 0 := by
  have hA := C1_single_token_per_logical_request ⟨60, 5, 30000⟩
    (RateLimiter.construct ⟨60, 5, 30000⟩ 0) 0 (fun _ => ⟨503, none, none⟩) 3
  have hB := C1_single_token_per_logical_request ⟨60, 5, 30000⟩
    ⟨0, 0, [], true⟩ 0 (fun _ => ⟨503, none, none⟩) 3
  have hAallow := hA.2.1 (by decide)
  exact ⟨⟨hA.1, hAallow.1, hAallow.2.1, hAallow.2.2⟩, hB.2.2 (by decide)⟩

namespace JiraApiService

/-- State of the deduplication layer: `requestDeduplicationMap` maps a cache
key to the in-flight promise stored for it (promises are identified by the
id they received at creation; callers handed the same id share the same
settlement, resolved value and rejection alike), plus a fresh-id counter and
a count of `requestFn` invocations for bookkeeping. -/
structure DedupState where
  requestDeduplicationMap : List (String × Nat)
  nextPromiseId : Nat
  fnCalls : Nat
deriving Repr, DecidableEq

/-- `Map.has` / `Map.get` on the association list. -/
def lookupKey : List (String × Nat) → String → Option Nat
  | [], _ => none
  | (k, v) :: rest, key => if k = key then some v else lookupKey rest key

/-- What `requestFn()` does at the moment it is invoked: return a promise
(the normal `async` case), or raise before any promise exists. -/
inductive FnBehavior where
  | returnsPromise
  | throwsSync
deriving Repr, DecidableEq

/-- `deduplicateRequest`: if the key is already in the map, return the
stored promise (no invocation of `requestFn`).  Otherwise invoke
`requestFn`; if it returns a promise, chain the finally-cleanup, store the
chained promise under the key, and return it (a fresh id).  If `requestFn`
raises synchronously, the exception propagates before `map.set` runs: the
map is unchanged and no promise is produced (`none`). -/
def deduplicateRequest (s : DedupState) (cacheKey : String) (b : FnBehavior) :
    DedupState × Option Nat :=
  match lookupKey s.requestDeduplicationMap cacheKey with
  | some p => (s, some p)
  | none =>
    match b with
    | .throwsSync => ({ s with fnCalls := s.fnCalls + 1 }, none)
    | .returnsPromise =>
      ({ requestDeduplicationMap :=
            (cacheKey, s.nextPromiseId) :: s.requestDeduplicationMap
         nextPromiseId := s.nextPromiseId + 1
         fnCalls := s.fnCalls + 1 }, some s.nextPromiseId)

/-- The finally-cleanup run when the stored promise settles, on resolution
and on rejection alike: `requestDeduplicationMap.delete(cacheKey)`. -/
def settleCleanup (s : DedupState) (cacheKey : String) : DedupState :=
  { s with requestDeduplicationMap :=
      s.requestDeduplicationMap.filter fun e => decide (e.1 ≠ cacheKey) }

/-- `n` calls with the same key issued while none of them has settled
(the concurrent same-key burst), collecting the promises handed back. -/
def runSame (cacheKey : String) : Nat → DedupState → DedupState × List (Option Nat)
  | 0, s => (s, [])
  | n + 1, s =>
    let r1 := deduplicateRequest s cacheKey .returnsPromise
    let rest := runSame cacheKey n r1.1
    (rest.1, r1.2 :: rest.2)

/-- An observable event of the deduplication layer. -/
inductive DStep where
  | call (key : String) (b : FnBehavior)
  | settle (key : String)

/-- Effect of one event on the state. -/
def dstep (s : DedupState) : DStep → DedupState
  | .call key b => (deduplicateRequest s key b).1
  | .settle key => settleCleanup s key

/-- Run a sequence of events from a state. -/
def runDedup : List DStep → DedupState → DedupState
  | [], s => s
  | st :: rest, s => runDedup rest (dstep s st)

theorem deduplicateRequest_hit (s : DedupState) (k : String) (b : FnBehavior) (p : Nat)
    (h : lookupKey s.requestDeduplicationMap k = some p) :
    deduplicateRequest s k b = (s, some p) := by
  simp [deduplicateRequest, h]

theorem lookupKey_cons_self (m : List (String × Nat)) (k : String) (v : Nat) :
    lookupKey ((k, v) :: m) k = some v := by
  simp [lookupKey]

theorem runSame_hit (k : String) (n : Nat) (s : DedupState) (p : Nat)
    (h : lookupKey s.requestDeduplicationMap k = some p) :
    runSame k n s = (s, List.replicate n (some p)) := by
  induction n with
  | zero => rfl
  | succ m ih =>
    simp [runSame, deduplicateRequest_hit s k _ p h, ih, List.replicate_succ]

theorem lookupKey_none_not_mem (m : List (String × Nat)) (k : String)
    (h : lookupKey m k = none) : k ∉ m.map Prod.fst := by
  induction m with
  | nil => simp
  | cons e rest ih =>
    obtain ⟨k', v⟩ := e
    simp only [lookupKey] at h
    split at h
    · exact absurd h (by simp)
    · next hne =>
      simp only [List.map_cons, List.mem_cons]
      rintro (rfl | hmem)
      · exact hne rfl
      · exact ih h hmem

theorem dstep_keys_nodup (s : DedupState) (st : DStep)
    (h : (s.requestDeduplicationMap.map Prod.fst).Nodup) :
    ((dstep s st).requestDeduplicationMap.map Prod.fst).Nodup := by
  cases st with
  | call key b =>
    simp only [dstep, deduplicateRequest]
    split
    · exact h
    · next hnone =>
      cases b with
      | throwsSync => exact h
      | returnsPromise =>
        simp only [List.map_cons]
        exact List.nodup_cons.mpr ⟨lookupKey_none_not_mem _ _ hnone, h⟩
  | settle key =>
    simp only [dstep, settleCleanup]
    exact ((List.filter_sublist _).map Prod.fst).nodup h

theorem runDedup_keys_nodup (trace : List DStep) (s : DedupState)
    (h : (s.requestDeduplicationMap.map Prod.fst).Nodup) :
    ((runDedup trace s).requestDeduplicationMap.map Prod.fst).Nodup := by
  induction trace generalizing s with
  | nil => exact h
  | cons st rest ih => exact ih (dstep s st) (dstep_keys_nodup s st h)

end JiraApiService

namespace JiraApiService

theorem lookupKey_filter_ne (m : List (String × Nat)) (k : String) :
    lookupKey (m.filter fun e => decide (e.1 ≠ k)) k = none := by
  induction m with
  | nil => rfl
  | cons e rest ih =>
    obtain ⟨k', v⟩ := e
    by_cases hk : k' = k
    · subst hk
      simpa [List.filter_cons] using ih
    · simp only [List.filter_cons]
      rw [if_pos (by simpa using hk)]
      simpa [lookupKey, hk] using ih

end JiraApiService

/-- C2: issuing `n ≥ 2` concurrent `deduplicateRequest` calls with the same
key (none settled in between) invokes `requestFn` exactly once, and every
caller receives the very same stored promise — hence the identical
settlement, resolved value or rejection error alike.  Moreover, over any
event sequence from the initial empty map, the deduplication map never
holds two live entries for one key (its key list stays duplicate-free). -/
theorem C2_dedup_coalescing (s : JiraApiService.DedupState) (k : String) (n : Nat)
    (trace : List JiraApiService.DStep)
    (h : JiraApiService.lookupKey s.requestDeduplicationMap k = none) (hn : 2 ≤ n) :
    (JiraApiService.runSame k n s).1.fnCalls = s.fnCalls + 1 ∧
    (JiraApiService.runSame k n s).2 =
      List.replicate n (some s.nextPromiseId) ∧
    ((JiraApiService.runDedup trace
        ⟨[], 0, 0⟩).requestDeduplicationMap.map Prod.fst).Nodup := by
  obtain ⟨m, rfl⟩ : ∃ m, n = m + 1 := ⟨n - 1, by omega⟩
  have hcall : JiraApiService.deduplicateRequest s k .returnsPromise =
      (⟨(k, s.nextPromiseId) :: s.requestDeduplicationMap,
        s.nextPromiseId + 1, s.fnCalls + 1⟩, some s.nextPromiseId) := by
    simp [JiraApiService.deduplicateRequest, h]
  have hlook := JiraApiService.lookupKey_cons_self s.requestDeduplicationMap k
    s.nextPromiseId
  have hrest := JiraApiService.runSame_hit k m
    ⟨(k, s.nextPromiseId) :: s.requestDeduplicationMap,
      s.nextPromiseId + 1, s.fnCalls + 1⟩ s.nextPromiseId hlook
  refine ⟨?_, ?_, JiraApiService.runDedup_keys_nodup trace ⟨[], 0, 0⟩ (by simp)⟩
  · simp [JiraApiService.runSame, hcall, hrest]
  · simp [JiraApiService.runSame, hcall, hrest, List.replicate_succ]

/-- C2 witness: two concurrent calls with key "getIssue:TEST-1" on the
fresh deduplication layer invoke the wrapped function once and both get
promise 0. -/
theorem C2_witness :
    (JiraApiService.runSame "getIssue:TEST-1" 2 ⟨[], 0, 0⟩).1.fnCalls = 0 + 1 ∧
    (JiraApiService.runSame "getIssue:TEST-1" 2 ⟨[], 0, 0⟩).2 = [some 0, some 0] := by
  have h := C2_dedup_coalescing ⟨[], 0, 0⟩ "getIssue:TEST-1" 2 [] rfl (by omega)
  exact ⟨h.1, by rw [h.2.1]; rfl⟩

/-- C9: the deduplication entry for a key is gone whenever its stored
promise settles (the finally-cleanup deletes the key on resolution and on
rejection alike), so after a call settles, a subsequent call with the same
key invokes its function again; and when the wrapped function raises
synchronously, no entry was ever stored (the map is unchanged), so the key
is never permanently blocked by a leaked entry. -/
theorem C9_dedup_cleanup (s : JiraApiService.DedupState) (k : String)
    (h : JiraApiService.lookupKey s.requestDeduplicationMap k = none) :
    JiraApiService.lookupKey
      (JiraApiService.settleCleanup s k).requestDeduplicationMap k = none ∧
    (JiraApiService.deduplicateRequest s k .returnsPromise).1.fnCalls = s.fnCalls + 1 ∧
    JiraApiService.lookupKey
      (JiraApiService.settleCleanup
        (JiraApiService.deduplicateRequest s k .returnsPromise).1 k).requestDeduplicationMap
      k = none ∧
    (JiraApiService.deduplicateRequest
      (JiraApiService.settleCleanup
        (JiraApiService.deduplicateRequest s k .returnsPromise).1 k)
      k .returnsPromise).1.fnCalls = s.fnCalls + 2 ∧
    (JiraApiService.deduplicateRequest s k .throwsSync).1.requestDeduplicationMap =
      s.requestDeduplicationMap ∧
    (JiraApiService.deduplicateRequest s k .throwsSync).1.fnCalls = s.fnCalls + 1 := by
  have hsettle := JiraApiService.lookupKey_filter_ne s.requestDeduplicationMap k
  have hcall : JiraApiService.deduplicateRequest s k .returnsPromise =
      (⟨(k, s.nextPromiseId) :: s.requestDeduplicationMap,
        s.nextPromiseId + 1, s.fnCalls + 1⟩, some s.nextPromiseId) := by
    simp [JiraApiService.deduplicateRequest, h]
  have hsettle2 := JiraApiService.lookupKey_filter_ne
    ((k, s.nextPromiseId) :: s.requestDeduplicationMap) k
  refine ⟨hsettle, by simp [hcall], ?_, ?_, ?_, ?_⟩
  · simp only [hcall, JiraApiService.settleCleanup]
    exact JiraApiService.lookupKey_filter_ne _ _
  · simp only [hcall, JiraApiService.settleCleanup]
    simp only [JiraApiService.deduplicateRequest, JiraApiService.lookupKey_filter_ne]
  · simp [JiraApiService.deduplicateRequest, h]
  · simp [JiraApiService.deduplicateRequest, h]

/-- C9 witness: on the fresh layer with key "getIssue:TEST-1", a call
followed by its settlement leaves the key free, a third call invokes the
function again (two invocations in total), and a synchronous raise leaves
the map unchanged. -/
theorem C9_witness :
    JiraApiService.lookupKey
      (JiraApiService.settleCleanup ⟨[], 0, 0⟩
        "getIssue:TEST-1").requestDeduplicationMap "getIssue:TEST-1" = none ∧
    (JiraApiService.deduplicateRequest ⟨[], 0, 0⟩
      "getIssue:TEST-1" .returnsPromise).1.fnCalls = 0 + 1 ∧
    JiraApiService.lookupKey
      (JiraApiService.settleCleanup
        (JiraApiService.deduplicateRequest ⟨[], 0, 0⟩
          "getIssue:TEST-1" .returnsPromise).1
        "getIssue:TEST-1").requestDeduplicationMap "getIssue:TEST-1" = none ∧
    (JiraApiService.deduplicateRequest
      (JiraApiService.settleCleanup
        (JiraApiService.deduplicateRequest ⟨[], 0, 0⟩
          "getIssue:TEST-1" .returnsPromise).1
        "getIssue:TEST-1")
      "getIssue:TEST-1" .returnsPromise).1.fnCalls = 0 + 2 ∧
    (JiraApiService.deduplicateRequest ⟨[], 0, 0⟩
      "getIssue:TEST-1" .throwsSync).1.requestDeduplicationMap = [] ∧
    (JiraApiService.deduplicateRequest ⟨[], 0, 0⟩
      "getIssue:TEST-1" .throwsSync).1.fnCalls = 0 + 1 :=
  C9_dedup_cleanup ⟨[], 0, 0⟩ "getIssue:TEST-1" rfl
